import Mathlib

/-!
# NetInfo — verification of the acquisition/parsing core

A shallow embedding of the NetInfo network-diagnostic tool's
acquisition, parsing and classification logic, with theorems settling
the specification claims C1..C10.

Pure functions of the Go source are translated into Lean functions.
External effects (process execution, HTTP requests, file reads) are
made explicit inputs: an adapter that runs a command and parses its
output becomes a Lean function of the command's outcome.  Go machine
integers are modelled as `Nat`/`Int`; `time.Duration` values are
nanosecond counts.
-/

namespace NetInfo

/-! ## String helpers (models of Go `strings` functions, ASCII range) -/

/-- ASCII whitespace, as recognised by Go `strings.TrimSpace` /
`strings.Fields` on ASCII input (full Go also strips non-ASCII Unicode
space, which never occurs in the command output modelled here). -/
def isSpaceChar (c : Char) : Bool :=
  c = ' ' || c = '\t' || c = '\n' || c = '\r' || c = '\x0b' || c = '\x0c'

/-- Model of Go `strings.TrimSpace`. -/
def goTrimSpace (s : String) : String :=
  ⟨((s.data.dropWhile isSpaceChar).reverse.dropWhile isSpaceChar).reverse⟩

/-- Split a character list at every character satisfying `p`, keeping
empty segments (the semantics of Go `strings.Split` with a one-byte
separator). -/
def splitByChar (p : Char → Bool) : List Char → List (List Char)
  | [] => [[]]
  | c :: rest =>
    if p c then [] :: splitByChar p rest
    else
      match splitByChar p rest with
      | g :: gs => (c :: g) :: gs
      | [] => [[c]]

/-- Split a string at every occurrence of the character `sep`. -/
def goSplitChar (s : String) (sep : Char) : List String :=
  (splitByChar (· = sep) s.data).map (fun g => ⟨g⟩)

/-- Model of Go `strings.Split(s, "\n")`. -/
def goSplitNewline (s : String) : List String :=
  goSplitChar s '\n'

/-- Model of Go `strings.Fields`: whitespace-separated fields, empties
dropped. -/
def goFields (s : String) : List String :=
  ((splitByChar isSpaceChar s.data).map (fun g => (⟨g⟩ : String))).filter (· ≠ "")

/-- Model of Go `strings.Contains`. -/
def strContainsSub (s sub : String) : Bool :=
  s.data.tails.any (fun t => sub.data.isPrefixOf t)

/-! ## Model of Go `net.ParseIP` / `IP.To4`

`net.ParseIP` dispatches on the first `'.'` or `':'` in the string:
a `'.'` first means dotted-quad IPv4, a `':'` first means IPv6 (with
an optional `%zone` suffix, discarded).  `To4()` is non-nil exactly
for dotted-quad addresses and for IPv6 addresses whose first five
16-bit groups are zero and sixth group is `0xffff` (IPv4-mapped). -/

/-- One dotted-quad field: 1–3 decimal digits, value ≤ 255, no leading
zero (Go rejects IPv4 fields with leading zeros). -/
def parseV4Field (s : String) : Option Nat :=
  if s.data ≠ [] && s.data.all (·.isDigit) && s.data.length ≤ 3 &&
      (s.data.length = 1 || s.data.head? ≠ some '0') then
    let n := s.data.foldl (fun n c => n * 10 + (c.toNat - 48)) 0
    if n ≤ 255 then some n else none
  else none

/-- Model of Go's dotted-quad IPv4 parser: exactly four fields. -/
def parseIPv4 (s : String) : Option (List Nat) :=
  match (goSplitChar s '.').mapM parseV4Field with
  | some fs => if fs.length = 4 then some fs else none
  | none => none

/-- Hexadecimal digit value (0 for non-hex characters, unused there). -/
def hexVal (c : Char) : Nat :=
  if '0' ≤ c ∧ c ≤ '9' then c.toNat - 48
  else if 'a' ≤ c ∧ c ≤ 'f' then c.toNat - 87
  else if 'A' ≤ c ∧ c ≤ 'F' then c.toNat - 55
  else 0

/-- Is `c` a hexadecimal digit? -/
def isHexChar (c : Char) : Bool :=
  ('0' ≤ c && c ≤ '9') || ('a' ≤ c && c ≤ 'f') || ('A' ≤ c && c ≤ 'F')

/-- One IPv6 group: 1–4 hex digits. -/
def parseHexGroup (s : String) : Option Nat :=
  if s.data ≠ [] && s.data.length ≤ 4 && s.data.all isHexChar then
    some (s.data.foldl (fun n c => n * 16 + hexVal c) 0)
  else none

/-- Parse a colon-separated chunk of IPv6 groups into 16-bit values.
When `allowV4End` is set the final group may be an embedded dotted
quad, contributing two 16-bit groups (as in Go's IPv6 parser). -/
def parseGroups : List String → Bool → Option (List Nat)
  | [], _ => some []
  | [g], allowV4 =>
    if allowV4 && g.data.contains '.' then
      match parseIPv4 g with
      | some [a, b, c, d] => some [a * 256 + b, c * 256 + d]
      | _ => none
    else (parseHexGroup g).map (fun n => [n])
  | g :: g2 :: rest, allowV4 =>
    match parseHexGroup g, parseGroups (g2 :: rest) allowV4 with
    | some n, some ns => some (n :: ns)
    | _, _ => none

/-- Split a character list at every non-overlapping occurrence of
`"::"`, keeping empty segments (Go `strings.Split(s, "::")`). -/
def splitDoubleColon : List Char → List (List Char)
  | [] => [[]]
  | ':' :: ':' :: rest => [] :: splitDoubleColon rest
  | c :: rest =>
    match splitDoubleColon rest with
    | g :: gs => (c :: g) :: gs
    | [] => [[c]]

/-- Model of Go's IPv6 parser, returning the eight 16-bit groups.  A
single `::` stands for at least one zero group; without `::` exactly
eight groups are required; an embedded dotted quad may end the
address. -/
def parseIPv6Groups (s : String) : Option (List Nat) :=
  match (splitDoubleColon s.data).map (fun g => (⟨g⟩ : String)) with
  | [whole] =>
    match parseGroups (goSplitChar whole ':') true with
    | some ns => if ns.length = 8 then some ns else none
    | none => none
  | [left, right] =>
    let lgs := if left = "" then [] else goSplitChar left ':'
    let rgs := if right = "" then [] else goSplitChar right ':'
    match parseGroups lgs false, parseGroups rgs true with
    | some ln, some rn =>
      if ln.length + rn.length < 8 then
        some (ln ++ List.replicate (8 - ln.length - rn.length) 0 ++ rn)
      else none
    | _, _ => none
  | _ => none

/-- A parsed Go IP address: dotted-quad IPv4 bytes or eight IPv6
16-bit groups. -/
inductive GoIP
  | v4 (fields : List Nat)
  | v6 (groups : List Nat)
deriving DecidableEq

/-- Strip an IPv6 `%zone` suffix (discarded by `net.ParseIP`). -/
def stripZone (s : String) : String :=
  ⟨s.data.takeWhile (· ≠ '%')⟩

/-- Model of Go `net.ParseIP`: dispatch on the first `'.'` or `':'`. -/
def goParseIP (s : String) : Option GoIP :=
  match s.data.find? (fun c => c = '.' || c = ':') with
  | some c =>
    if c = '.' then (parseIPv4 s).map GoIP.v4
    else (parseIPv6Groups (stripZone s)).map GoIP.v6
  | none => none

/-- Model of `ip.To4() != nil` on a parsed address. -/
def ipTo4NonNil : GoIP → Bool
  | .v4 _ => true
  | .v6 gs => decide (gs.take 5 = [0, 0, 0, 0, 0]) && decide ((gs.drop 5).head? = some 0xffff)

/-- Model of `net.ParseIP(s) != nil`. -/
def goIsIP (s : String) : Bool :=
  (goParseIP s).isSome

/-- Model of `net.ParseIP(s).To4() != nil` (on a nil slice `To4`
returns nil, so an unparseable string yields `false`). -/
def goIsIPv4 (s : String) : Bool :=
  match goParseIP s with
  | some ip => ipTo4NonNil ip
  | none => false

/-! ## Route-type classification (routes adapter)

The classifier appears inline, identically, in `getWindowsRoutes`,
`getLinuxRoutes` and `parseLinuxIPRouteOutput`: start from `"Host"`,
and only when the destination contains `"/"` decide between
`"Default"` and `"Network"`.  The Linux variants additionally test
`destination == "default"` inside the `Contains("/")` branch. -/

/-- Route type as computed in `getLinuxRoutes` /
`parseLinuxIPRouteOutput` (src/utils/helpers.go). -/
def linuxRouteType (destination : String) : String :=
  if strContainsSub destination "/" then
    if destination = "default" || destination = "0.0.0.0/0" || destination = "::/0" then
      "Default"
    else
      "Network"
  else
    "Host"

/-- Route type as computed in `getWindowsRoutes`
(src/utils/helpers.go): same shape, without the `"default"` literal. -/
def windowsRouteType (destination : String) : String :=
  if strContainsSub destination "/" then
    if destination = "0.0.0.0/0" || destination = "::/0" then
      "Default"
    else
      "Network"
  else
    "Host"

/-! ## Gateway adapter (src/network/gateway.go)

External effects are explicit inputs: a tier that runs a command and
JSON-decodes its output becomes a function of the decoded value, with
`none` standing for a command or decode failure (both are skipped the
same way in the source).  Go's `v.(string)` / `v.(float64)` type
assertions on the decoded maps yield the zero value on a missing key,
so a decoded route entry is a record of plain fields. -/

/-- The `GatewayInfo` (src/network/gateway.go). -/
structure GatewayInfo where
  interface_ : String
  gateway : String
  ipVersion : String
  metric : Int
  source : String
deriving DecidableEq

/-- The `GatewayConfig` (src/network/gateway.go): `nil` pointers become
`none`. -/
structure GatewayConfig where
  defaultIPv4 : Option GatewayInfo := none
  defaultIPv6 : Option GatewayInfo := none
  allGateways : List GatewayInfo := []
deriving DecidableEq

/-- One decoded entry of `ip -j route show default` output: the
`dev`, `gateway` and `metric` keys (Go zero values when absent). -/
structure JRouteEntry where
  dev : String
  gateway : String
  metric : Int
deriving DecidableEq

/-- One decoded entry of the PowerShell `Get-NetRoute` output: the
`InterfaceAlias`, `NextHop` and `RouteMetric` keys. -/
structure WinRoute where
  interfaceAlias : String
  nextHop : String
  metric : Int
deriving DecidableEq

/-- The inline IP-version computation of `getLinuxGateway` /
`parseIPRouteOutput`: `"IPv4"` unless `net.ParseIP(gw).To4()` is nil. -/
def linuxGatewayVersion (gateway : String) : String :=
  if goIsIPv4 gateway then "IPv4" else "IPv6"

/-- Append a gateway record and designate it the per-family default
when that family has none yet (the shared tail of the record loops in
`getLinuxGateway` and `parseIPRouteOutput`). -/
def addGateway (cfg : GatewayConfig) (gi : GatewayInfo) : GatewayConfig :=
  let cfg := { cfg with allGateways := cfg.allGateways ++ [gi] }
  if gi.ipVersion = "IPv4" ∧ cfg.defaultIPv4 = none then
    { cfg with defaultIPv4 := some gi }
  else if gi.ipVersion = "IPv6" ∧ cfg.defaultIPv6 = none then
    { cfg with defaultIPv6 := some gi }
  else cfg

/-- Record loop body of the structured (JSON) Linux gateway tier. -/
def processLinuxJSONRoute (cfg : GatewayConfig) (r : JRouteEntry) : GatewayConfig :=
  if r.dev ≠ "" ∧ r.gateway ≠ "" then
    addGateway cfg
      { interface_ := r.dev, gateway := r.gateway,
        ipVersion := linuxGatewayVersion r.gateway, metric := r.metric,
        source := "ip -j route" }
  else cfg

/-- Structured (JSON) Linux gateway tier over the decoded route list. -/
def linuxJSONGatewayTier (routes : List JRouteEntry) : GatewayConfig :=
  routes.foldl processLinuxJSONRoute {}

/-- First list element that equals `kw` and has a successor, returning
the successor (the keyword-scan loops of `parseIPRouteOutput` and
`parseLinuxIPRouteOutput`). -/
def findAfterKeyword (kw : String) : List String → Option String
  | x :: y :: rest => if x = kw then some y else findAfterKeyword kw (y :: rest)
  | _ => none

/-- Model of Go `strconv.Atoi` (64-bit overflow ignored: route metrics
are small). -/
def goAtoi (s : String) : Option Int :=
  let digitsVal : List Char → Int := fun l =>
    Int.ofNat (l.foldl (fun n c => n * 10 + (c.toNat - 48)) 0)
  match s.data with
  | [] => none
  | '-' :: rest =>
    if rest ≠ [] && rest.all (·.isDigit) then some (-(digitsVal rest)) else none
  | '+' :: rest =>
    if rest ≠ [] && rest.all (·.isDigit) then some (digitsVal rest) else none
  | l => if l.all (·.isDigit) then some (digitsVal l) else none

/-- Per-line body of `parseIPRouteOutput` (text gateway tier): a line
is only accepted if it starts `default via <gw>` with at least four
fields; `dev` and `metric` are located by keyword scan. -/
def parseIPRouteLine (cfg : GatewayConfig) (line : String) : GatewayConfig :=
  let line := goTrimSpace line
  if line = "" then cfg
  else
    let parts := goFields line
    match parts with
    | "default" :: "via" :: gateway :: _ :: _ =>
      let interfaceName := (findAfterKeyword "dev" parts).getD ""
      let metric := ((findAfterKeyword "metric" parts).bind goAtoi).getD 0
      if interfaceName ≠ "" ∧ gateway ≠ "" then
        addGateway cfg
          { interface_ := interfaceName, gateway := gateway,
            ipVersion := linuxGatewayVersion gateway, metric := metric,
            source := "ip route" }
      else cfg
    | _ => cfg

/-- The `parseIPRouteOutput` (src/network/gateway.go): the text gateway
tier over the raw `ip route show default` output. -/
def parseIPRouteOutput (output : String) : GatewayConfig :=
  (goSplitNewline output).foldl parseIPRouteLine {}

/-- The `getLinuxGateway` (src/network/gateway.go).  `t1` is the decoded
JSON-tier outcome, `t2` the raw text-tier output (`none` = that tier's
command failed).  The raw `/proc/net/route` tier is the declared
always-failing fallback `parseProcNetRoute`. -/
def getLinuxGateway (t1 : Option (List JRouteEntry)) (t2 : Option String) :
    GatewayConfig × Option String :=
  let cfg := match t1 with
    | some routes => linuxJSONGatewayTier routes
    | none => {}
  let cfg := if cfg.allGateways = [] then
      match t2 with
      | some out => parseIPRouteOutput out
      | none => cfg
    else cfg
  if cfg.allGateways = [] then
    ({ defaultIPv4 := none, defaultIPv6 := none, allGateways := [] },
      some "parsing /proc/net/route not implemented")
  else (cfg, none)

/-- Record loop body of the IPv4 command in `getWindowsGateway`: the
record is tagged `"IPv4"` because it came from the
`-DestinationPrefix "0.0.0.0/0"` query, with no parse of the hop. -/
def winAddV4 (cfg : GatewayConfig) (r : WinRoute) : GatewayConfig :=
  if r.interfaceAlias ≠ "" ∧ r.nextHop ≠ "" then
    let gi : GatewayInfo :=
      { interface_ := r.interfaceAlias, gateway := r.nextHop,
        ipVersion := "IPv4", metric := r.metric, source := "PowerShell" }
    { cfg with allGateways := cfg.allGateways ++ [gi],
               defaultIPv4 := if cfg.defaultIPv4 = none then some gi else cfg.defaultIPv4 }
  else cfg

/-- Record loop body of the IPv6 command in `getWindowsGateway`. -/
def winAddV6 (cfg : GatewayConfig) (r : WinRoute) : GatewayConfig :=
  if r.interfaceAlias ≠ "" ∧ r.nextHop ≠ "" then
    let gi : GatewayInfo :=
      { interface_ := r.interfaceAlias, gateway := r.nextHop,
        ipVersion := "IPv6", metric := r.metric, source := "PowerShell" }
    { cfg with allGateways := cfg.allGateways ++ [gi],
               defaultIPv6 := if cfg.defaultIPv6 = none then some gi else cfg.defaultIPv6 }
  else cfg

/-- The `getWindowsGateway` (src/network/gateway.go): the decoded outcomes
of the IPv4-scoped and IPv6-scoped PowerShell queries (single object
and array outputs both decode to a list).  Always returns a nil
error. -/
def getWindowsGateway (v4 : Option (List WinRoute)) (v6 : Option (List WinRoute)) :
    GatewayConfig × Option String :=
  let cfg : GatewayConfig := {}
  let cfg := match v4 with
    | some rs => rs.foldl winAddV4 cfg
    | none => cfg
  let cfg := match v6 with
    | some rs => rs.foldl winAddV6 cfg
    | none => cfg
  (cfg, none)

/-- The gateway records one Windows per-family query produces: its
valid entries (non-empty alias and next hop) in order, every record
tagged with the query's own family.  Characterises `getWindowsGateway`
in the theorems below. -/
def winTierRecords (version : String) (routes : List WinRoute) : List GatewayInfo :=
  (routes.filter (fun r => !(r.interfaceAlias == "") && !(r.nextHop == ""))).map
    (fun r =>
      { interface_ := r.interfaceAlias, gateway := r.nextHop,
        ipVersion := version, metric := r.metric, source := "PowerShell" })

/-! ## Connection status normalisation (connections adapter) -/

/-- The lower→upper case table of ASCII letters. -/
def lowerUpperTable : List (Char × Char) :=
  [('a', 'A'), ('b', 'B'), ('c', 'C'), ('d', 'D'), ('e', 'E'), ('f', 'F'),
   ('g', 'G'), ('h', 'H'), ('i', 'I'), ('j', 'J'), ('k', 'K'), ('l', 'L'),
   ('m', 'M'), ('n', 'N'), ('o', 'O'), ('p', 'P'), ('q', 'Q'), ('r', 'R'),
   ('s', 'S'), ('t', 'T'), ('u', 'U'), ('v', 'V'), ('w', 'W'), ('x', 'X'),
   ('y', 'Y'), ('z', 'Z')]

/-- Model of Go `strings.ToUpper` on one character (ASCII: the status
strings normalised here are ASCII). -/
def goCharUpper (c : Char) : Char :=
  match lowerUpperTable.find? (fun p => p.1 = c) with
  | some p => p.2
  | none => c

/-- Model of Go `strings.ToUpper`. -/
def goToUpper (s : String) : String :=
  ⟨s.data.map goCharUpper⟩

/-- The `mapGopsutilStatus` (connections source file): a `switch` on the
upper-cased status, translated case by case in source order. -/
def mapGopsutilStatus (status : String) : String :=
  if goToUpper status = "ESTABLISHED" then "ESTABLISHED"
  else if goToUpper status = "LISTEN" then "LISTEN"
  else if goToUpper status = "SYN_SENT" then "SYN_SENT"
  else if goToUpper status = "SYN_RECV" then "SYN_RECV"
  else if goToUpper status = "FIN_WAIT1" then "FIN_WAIT1"
  else if goToUpper status = "FIN_WAIT2" then "FIN_WAIT2"
  else if goToUpper status = "TIME_WAIT" then "TIME_WAIT"
  else if goToUpper status = "CLOSE" then "CLOSE"
  else if goToUpper status = "CLOSE_WAIT" then "CLOSE_WAIT"
  else if goToUpper status = "LAST_ACK" then "LAST_ACK"
  else if goToUpper status = "LISTENING" then "LISTEN"
  else goToUpper status

/-! ## DNS adapter, file-based strategy (src/network/dns.go) -/

/-- The `DNSInfo` (src/network/dns.go). -/
structure DNSInfo where
  interface_ : String
  ipv4 : List String
  ipv6 : List String
  all : List String
deriving DecidableEq

/-- The `DNSConfig` (src/network/dns.go). -/
structure DNSConfig where
  servers : List DNSInfo := []
  searchList : List String := []
deriving DecidableEq

/-- Per-line body of `getLinuxDNS`: skip blanks and `#` comments,
require at least two fields, then dispatch on the first field. -/
def linuxDNSLine (st : DNSInfo × List String) (line : String) : DNSInfo × List String :=
  let dnsInfo := st.1
  let searchL := st.2
  let line := goTrimSpace line
  if line = "" || "#".data.isPrefixOf line.data then (dnsInfo, searchL)
  else
    let fields := goFields line
    if fields.length < 2 then (dnsInfo, searchL)
    else
      match fields with
      | "nameserver" :: server :: _ =>
        let dnsInfo := { dnsInfo with all := dnsInfo.all ++ [server] }
        let dnsInfo :=
          if goIsIP server then
            if goIsIPv4 server then { dnsInfo with ipv4 := dnsInfo.ipv4 ++ [server] }
            else { dnsInfo with ipv6 := dnsInfo.ipv6 ++ [server] }
          else dnsInfo
        (dnsInfo, searchL)
      | "search" :: rest => (dnsInfo, searchL ++ rest)
      | _ => (dnsInfo, searchL)

/-- The `getLinuxDNS` (src/network/dns.go) over the contents of
`/etc/resolv.conf` (the file-read failure path returns early and
produces no config).  All servers accumulate into one synthetic
`"system"` record, kept only when non-empty. -/
def getLinuxDNS (content : String) : DNSConfig :=
  let init : DNSInfo := { interface_ := "system", ipv4 := [], ipv6 := [], all := [] }
  let st := (goSplitNewline content).foldl linuxDNSLine (init, [])
  { servers := if st.1.all ≠ [] then [st.1] else [],
    searchList := st.2 }

/-! ## Ping adapter (src/network/ping.go)

The two statistics pattern matchers are fixed regular expressions;
each is translated as a leftmost scan trying the pattern at every
position, with `\d+` and `[\d.]+` taken as maximal runs (equivalent
here because each run is followed by a character outside its class).
Go `time.Duration` values are nanosecond counts; the fractional
millisecond captures go through a decimal model of
`strconv.ParseFloat` followed by the source's `*1000` and truncation
to whole microseconds. -/

/-- Decimal digit-run value. -/
def digitsToNat (l : List Char) : Nat :=
  l.foldl (fun n c => n * 10 + (c.toNat - 48)) 0

/-- Match a literal at the head of the input, returning the rest. -/
def expectStr (lit : String) (cs : List Char) : Option (List Char) :=
  if lit.data.isPrefixOf cs then some (cs.drop lit.data.length) else none

/-- Maximal `\d+` run at the head of the input. -/
def takeDigits (cs : List Char) : Option (Nat × List Char) :=
  let ds := cs.takeWhile (·.isDigit)
  if ds ≠ [] then some (digitsToNat ds, cs.drop ds.length) else none

/-- Maximal `[\d.]+` run at the head of the input. -/
def takeDotDigits (cs : List Char) : Option (List Char × List Char) :=
  let ds := cs.takeWhile (fun c => c.isDigit || c = '.')
  if ds ≠ [] then some (ds, cs.drop ds.length) else none

/-- The `\((\d+)% loss\)` (Windows packet-loss pattern) at one position. -/
def matchWinLossAt : List Char → Option Nat
  | '(' :: rest =>
    match takeDigits rest with
    | some (n, rest) => if "% loss)".data.isPrefixOf rest then some n else none
    | none => none
  | _ => none

/-- Leftmost Windows packet-loss match in a line. -/
def findWinLoss (line : String) : Option Nat :=
  line.data.tails.findSome? matchWinLossAt

/-- The `Minimum = (\d+)ms, Maximum = (\d+)ms, Average = (\d+)ms` at one
position. -/
def matchWinRTTAt (cs : List Char) : Option (Nat × Nat × Nat) := do
  let cs ← expectStr "Minimum = " cs
  let (mn, cs) ← takeDigits cs
  let cs ← expectStr "ms, Maximum = " cs
  let (mx, cs) ← takeDigits cs
  let cs ← expectStr "ms, Average = " cs
  let (av, cs) ← takeDigits cs
  let _ ← expectStr "ms" cs
  pure (mn, mx, av)

/-- Leftmost Windows RTT-statistics match in a line. -/
def findWinRTT (line : String) : Option (Nat × Nat × Nat) :=
  line.data.tails.findSome? matchWinRTTAt

/-- The `(\d+)% packet loss` (Linux) at one position. -/
def matchLinuxLossAt (cs : List Char) : Option Nat :=
  match takeDigits cs with
  | some (n, rest) => if "% packet loss".data.isPrefixOf rest then some n else none
  | none => none

/-- Leftmost Linux packet-loss match in a line. -/
def findLinuxLoss (line : String) : Option Nat :=
  line.data.tails.findSome? matchLinuxLossAt

/-- The `rtt min/avg/max/mdev = (...)/(...)/(...)/(...) ms` at one
position, returning the four raw captures. -/
def matchLinuxRTTAt (cs : List Char) : Option (String × String × String × String) := do
  let cs ← expectStr "rtt min/avg/max/mdev = " cs
  let (g1, cs) ← takeDotDigits cs
  let cs ← expectStr "/" cs
  let (g2, cs) ← takeDotDigits cs
  let cs ← expectStr "/" cs
  let (g3, cs) ← takeDotDigits cs
  let cs ← expectStr "/" cs
  let (g4, cs) ← takeDotDigits cs
  let _ ← expectStr " ms" cs
  pure (⟨g1⟩, ⟨g2⟩, ⟨g3⟩, ⟨g4⟩)

/-- Leftmost Linux RTT-statistics match in a line. -/
def findLinuxRTT (line : String) : Option (String × String × String × String) :=
  line.data.tails.findSome? matchLinuxRTTAt

/-- The `(\d+) packets transmitted, (\d+) received` at one position. -/
def matchLinuxPacketsAt (cs : List Char) : Option (Nat × Nat) := do
  let (s, cs) ← takeDigits cs
  let cs ← expectStr " packets transmitted, " cs
  let (r, cs) ← takeDigits cs
  let _ ← expectStr " received" cs
  pure (s, r)

/-- Leftmost packets-transmitted match in a line. -/
def findLinuxPackets (line : String) : Option (Nat × Nat) :=
  line.data.tails.findSome? matchLinuxPacketsAt

/-- Decimal model of `strconv.ParseFloat` on a `[\d.]+` capture,
followed by the source's `time.Duration(x*1000)` truncation to whole
microseconds: at most one dot, at least one digit. -/
def parseMsToMicro (s : String) : Option Nat :=
  match splitByChar (· = '.') s.data with
  | [ip] =>
    if ip ≠ [] && ip.all (·.isDigit) then some (digitsToNat ip * 1000) else none
  | [ip, fp] =>
    if (ip ≠ [] || fp ≠ []) && ip.all (·.isDigit) && fp.all (·.isDigit) then
      some (digitsToNat ip * 1000 + digitsToNat (fp.take 3) * 10 ^ (3 - (fp.take 3).length))
    else none
  | _ => none

/-- The `PingResult` (src/network/ping.go).  RTTs are nanosecond counts;
`packetsRecv` is an `Int` because the Windows branch computes it. -/
structure PingResultM where
  host : String
  success : Bool
  packetLoss : Nat
  minRTT : Nat
  maxRTT : Nat
  avgRTT : Nat
  packetsSent : Nat
  packetsRecv : Int
  rawOutput : String
  error : String
deriving DecidableEq

/-- Line loop of `parseWindowsPingOutput`: packet loss and the three
RTTs, later matches overwriting earlier ones. -/
def winPingFields (output : String) : Nat × Nat × Nat × Nat :=
  (goSplitNewline output).foldl
    (fun st line =>
      let line := goTrimSpace line
      let st := match findWinLoss line with
        | some l => (l, st.2.1, st.2.2.1, st.2.2.2)
        | none => st
      match findWinRTT line with
      | some (mn, mx, av) => (st.1, mn * 1000000, mx * 1000000, av * 1000000)
      | none => st)
    (0, 0, 0, 0)

/-- The `parseWindowsPingOutput` (src/network/ping.go): when no packet
count was extracted the sent count defaults to 4, and the received
count is computed from the loss percentage (float truncation modelled
by `Int` division toward zero). -/
def parseWindowsPingOutput (result : PingResultM) (output : String) : PingResultM :=
  let f := winPingFields output
  let packetsSent := if result.packetsSent = 0 then 4 else result.packetsSent
  let packetsRecv : Int := Int.tdiv (Int.ofNat packetsSent * (100 - Int.ofNat f.1)) 100
  { result with packetLoss := f.1, minRTT := f.2.1, maxRTT := f.2.2.1,
                avgRTT := f.2.2.2, packetsSent := packetsSent,
                packetsRecv := packetsRecv }

/-- The six mutable locals of `parseLinuxPingOutput`. -/
structure LPVars where
  loss : Nat := 0
  minNs : Nat := 0
  avgNs : Nat := 0
  maxNs : Nat := 0
  sent : Nat := 0
  recv : Nat := 0
deriving DecidableEq

/-- Line loop body of `parseLinuxPingOutput`: each RTT capture is
converted separately and only overwrites its field when the
conversion succeeds. -/
def linuxPingLine (v : LPVars) (line : String) : LPVars :=
  let line := goTrimSpace line
  let v := match findLinuxLoss line with
    | some l => { v with loss := l }
    | none => v
  let v := match findLinuxRTT line with
    | some (g1, g2, g3, _) =>
      let v := match parseMsToMicro g1 with
        | some m => { v with minNs := m * 1000 }
        | none => v
      let v := match parseMsToMicro g2 with
        | some m => { v with avgNs := m * 1000 }
        | none => v
      match parseMsToMicro g3 with
      | some m => { v with maxNs := m * 1000 }
      | none => v
    | none => v
  match findLinuxPackets line with
  | some (s, r) => { v with sent := s, recv := r }
  | none => v

/-- The `parseLinuxPingOutput` (src/network/ping.go). -/
def parseLinuxPingOutput (result : PingResultM) (output : String) : PingResultM :=
  let v := (goSplitNewline output).foldl linuxPingLine {}
  { result with packetLoss := v.loss, minRTT := v.minNs, maxRTT := v.maxNs,
                avgRTT := v.avgNs, packetsSent := v.sent,
                packetsRecv := Int.ofNat v.recv }

/-- Outcome of `cmd.Output()` in `PingHost`: a runner failure or a
non-zero exit carries the Go error text and whatever output bytes were
captured. -/
inductive CmdOutcome
  | err (msg : String) (captured : String)
  | ok (out : String)
deriving DecidableEq

/-- The `PingHost` (src/network/ping.go).  Both parse helpers always
return a nil Go error, so the `if err != nil` demotion after parsing
never fires; every path returns a nil second component. -/
def pingHost (isWindows : Bool) (host : String) (outcome : CmdOutcome) :
    PingResultM × Option String :=
  match outcome with
  | .err msg out =>
    ({ host := host, success := false, packetLoss := 0, minRTT := 0, maxRTT := 0,
       avgRTT := 0, packetsSent := 0, packetsRecv := 0, rawOutput := out,
       error := msg }, none)
  | .ok out =>
    let result : PingResultM :=
      { host := host, success := true, packetLoss := 0, minRTT := 0, maxRTT := 0,
        avgRTT := 0, packetsSent := 0, packetsRecv := 0, rawOutput := out,
        error := "" }
    let result := if isWindows then parseWindowsPingOutput result out
                  else parseLinuxPingOutput result out
    (result, none)

/-! ## Typed errors and retry policy (src/utils/errors.go) -/

/-- The `ErrorType` (src/utils/errors.go). -/
inductive ErrorType
  | network
  | timeout
  | permission
  | command
  | parse
  | validation
  | unknown
deriving DecidableEq

/-- A Go `error` value as inspected by the classifiers: either a typed
`*NetworkError` or any other error, carrying its `Error()` text. -/
inductive GoError
  | typed (t : ErrorType) (message : String)
  | plain (message : String)
deriving DecidableEq

/-- The `IsTimeoutError` (src/utils/errors.go): type check for typed
errors, message-substring check otherwise. -/
def IsTimeoutError : GoError → Bool
  | .typed t _ => t = .timeout
  | .plain m => strContainsSub m "timeout" || strContainsSub m "deadline exceeded"

/-- The `IsPermissionError` (src/utils/errors.go). -/
def IsPermissionError : GoError → Bool
  | .typed t _ => t = .permission
  | .plain m =>
    strContainsSub m "permission denied" || strContainsSub m "access denied" ||
      strContainsSub m "not permitted"

/-- The `IsNetworkError` (src/utils/errors.go). -/
def IsNetworkError : GoError → Bool
  | .typed t _ => t = .network
  | .plain m =>
    strContainsSub m "network" || strContainsSub m "connection" ||
      strContainsSub m "unreachable"

/-- The `ShouldRetry` (src/utils/errors.go), branch for branch. -/
def ShouldRetry (err : GoError) : Bool :=
  if IsTimeoutError err then true
  else if IsNetworkError err then true
  else if IsPermissionError err then false
  else false

/-- The `RetryDelay` (src/utils/helpers.go constants): one second in
nanoseconds. -/
def RetryDelay : Int := 1000000000

/-- Two's-complement wrap into the signed 64-bit range, modelling
overflow of Go `int64` / `time.Duration` arithmetic
(9223372036854775808 = 2^63, 18446744073709551616 = 2^64). -/
def wrap64 (x : Int) : Int :=
  (x + 9223372036854775808) % 18446744073709551616 - 9223372036854775808

/-- The `GetRetryDelay` (src/utils/errors.go): nanosecond count.  The
product `time.Duration(attempt) * RetryDelay` is 64-bit integer
multiplication, so it wraps when `attempt * 10^9` exceeds the `int64`
range; the ten-second cap then compares against the wrapped value.
The `attempt` parameter is a Go `int`, i.e. an `int64` value. -/
def GetRetryDelay (attempt : Int) : Int :=
  if attempt ≤ 0 then RetryDelay
  else
    let delay := wrap64 (attempt * RetryDelay)
    if delay > 10 * 1000000000 then 10 * 1000000000 else delay

/-! ## Connections adapter (unnamed connections source file) -/

/-- The `ConnectionInfo` (connections source file). -/
structure ConnectionInfo where
  family : String
  type_ : String
  localAddr : String
  remoteAddr : String
  status : String
  pid : Int
  process : String
  user : String
  createTime : Int
deriving DecidableEq

/-- The `ConnectionConfig` with its aggregate counters. -/
structure ConnectionConfig where
  connections : List ConnectionInfo := []
  totalCount : Nat := 0
  tcpCount : Nat := 0
  udpCount : Nat := 0
  listenCount : Nat := 0
  establishedCount : Nat := 0
deriving DecidableEq

/-- A raw gopsutil connection record as consumed by the loop. -/
structure RawConn where
  laddrIP : String
  laddrPort : Nat
  raddrIP : String
  raddrPort : Nat
  status : String
  pid : Int
  ctype : Nat
deriving DecidableEq

/-- The `getConnectionType` (connections source file). -/
def getConnectionType (connType : Nat) : String :=
  if connType = 1 then "tcp"
  else if connType = 2 then "udp"
  else if connType = 3 then "tcp6"
  else if connType = 4 then "udp6"
  else if connType = 5 then "unix"
  else "unknown"

/-- Go map indexing with the string zero value for a missing PID. -/
def lookupPid (m : List (Int × String)) (pid : Int) : String :=
  match m.find? (fun p => p.1 = pid) with
  | some p => p.2
  | none => ""

/-- Record loop body of `getActiveConnections`: records with an empty
local address are skipped; counters update per retained record. -/
def processConn (pm : List (Int × String)) (cfg : ConnectionConfig) (conn : RawConn) :
    ConnectionConfig :=
  if conn.laddrIP = "" then cfg
  else
    let family := if goIsIPv4 conn.laddrIP then "IPv4" else "IPv6"
    let localAddr := conn.laddrIP ++ ":" ++ toString conn.laddrPort
    let remoteAddr :=
      if conn.raddrIP ≠ "" && conn.raddrIP ≠ "0.0.0.0" && conn.raddrIP ≠ "::" then
        conn.raddrIP ++ ":" ++ toString conn.raddrPort
      else ""
    let processName := lookupPid pm conn.pid
    let status := mapGopsutilStatus conn.status
    let info : ConnectionInfo :=
      { family := family, type_ := getConnectionType conn.ctype,
        localAddr := localAddr, remoteAddr := remoteAddr, status := status,
        pid := conn.pid, process := processName, user := "", createTime := 0 }
    let cfg := { cfg with connections := cfg.connections ++ [info],
                          totalCount := cfg.totalCount + 1 }
    let cfg :=
      if getConnectionType conn.ctype = "tcp" then
        { cfg with tcpCount := cfg.tcpCount + 1 }
      else if getConnectionType conn.ctype = "udp" then
        { cfg with udpCount := cfg.udpCount + 1 }
      else cfg
    if status = "LISTEN" then { cfg with listenCount := cfg.listenCount + 1 }
    else if status = "ESTABLISHED" then
      { cfg with establishedCount := cfg.establishedCount + 1 }
    else cfg

/-- The `getActiveConnections` (connections source file) over the
enumerated socket list and the PID→name table (the enumeration-failure
path returns an error before any record is processed). -/
def getActiveConnections (conns : List RawConn) (pm : List (Int × String)) :
    ConnectionConfig :=
  conns.foldl (processConn pm) {}

/-! ## Public-IP lookup (src/utils/platform.go) -/

/-- What one endpoint of `GetPublicIP` yields: a transport failure, a
body-read failure, or a status code with a body. -/
inductive EndpointOutcome
  | netErr
  | readErr
  | resp (statusCode : Nat) (body : String)
deriving DecidableEq

/-- The endpoint loop of `GetPublicIP` (src/utils/platform.go),
returning the accepted IP (or `none` when all endpoints fail) and the
number of endpoints attempted.  The overall-deadline check at the top
of each iteration is not modelled (no real time); it returns early
with a timeout error when the ten-second budget lapses. -/
def getPublicIPLoop : List EndpointOutcome → Option String × Nat
  | [] => (none, 0)
  | o :: rest =>
    match o with
    | .netErr =>
      let r := getPublicIPLoop rest
      (r.1, r.2 + 1)
    | .readErr =>
      let r := getPublicIPLoop rest
      (r.1, r.2 + 1)
    | .resp code body =>
      if code ≠ 200 then
        let r := getPublicIPLoop rest
        (r.1, r.2 + 1)
      else
        let publicIP := goTrimSpace body
        if goIsIP publicIP then (some publicIP, 1)
        else
          let r := getPublicIPLoop rest
          (r.1, r.2 + 1)

end NetInfo

namespace NetInfo

/-- C1 evaluation: the literal destination `"default"` contains no
`'/'`, so every classifier in the source labels it `"Host"`, while the
all-zero prefixes are labelled `"Default"`. -/
theorem routeType_default_literal :
    linuxRouteType "default" = "Host" ∧ windowsRouteType "default" = "Host" ∧
    linuxRouteType "0.0.0.0/0" = "Default" ∧ linuxRouteType "::/0" = "Default" := by
  decide

/-! ### Status normalisation lemmas -/

theorem goCharUpper_eq_self_or_upper (c : Char) :
    goCharUpper c = c ∨ ∃ p ∈ lowerUpperTable, goCharUpper c = p.2 := by
  unfold goCharUpper
  cases hf : lowerUpperTable.find? (fun p => p.1 = c) with
  | none => left; simp [hf]
  | some p =>
    right
    exact ⟨p, List.mem_of_find?_eq_some hf, by simp [hf]⟩

theorem goCharUpper_idem (c : Char) : goCharUpper (goCharUpper c) = goCharUpper c := by
  rcases goCharUpper_eq_self_or_upper c with h | ⟨p, hp, he⟩
  · rw [h]
    exact h
  · have h2 : ∀ q ∈ lowerUpperTable, goCharUpper q.2 = q.2 := by decide
    rw [he]
    exact h2 p hp

theorem goToUpper_idem (s : String) : goToUpper (goToUpper s) = goToUpper s := by
  unfold goToUpper
  simp only [List.map_map]
  congr 1
  apply List.map_congr_left
  intro c _
  exact goCharUpper_idem c

set_option maxHeartbeats 1000000 in
theorem mapGopsutilStatus_eq (s : String) :
    mapGopsutilStatus s =
      if goToUpper s = "LISTENING" then "LISTEN" else goToUpper s := by
  by_cases h : goToUpper s = "LISTENING"
  · rw [if_pos h]
    unfold mapGopsutilStatus
    rw [h]
    decide
  · rw [if_neg h]
    unfold mapGopsutilStatus
    split_ifs with h1 h2 h3 h4 h5 h6 h7 h8 h9 h10 <;>
      first
        | rfl
        | exact h1.symm | exact h2.symm | exact h3.symm | exact h4.symm
        | exact h5.symm | exact h6.symm | exact h7.symm | exact h8.symm
        | exact h9.symm | exact h10.symm

/-- C6: connection-status normalisation is idempotent, and the
`"LISTENING"` synonym maps to `"LISTEN"`. -/
theorem mapGopsutilStatus_idempotent (s : String) :
    mapGopsutilStatus (mapGopsutilStatus s) = mapGopsutilStatus s ∧
    mapGopsutilStatus "LISTENING" = "LISTEN" := by
  have hup : goToUpper "LISTEN" = "LISTEN" := by decide
  have hne : ("LISTEN" : String) ≠ "LISTENING" := by decide
  refine ⟨?_, by decide⟩
  rw [mapGopsutilStatus_eq s, mapGopsutilStatus_eq]
  by_cases h : goToUpper s = "LISTENING"
  · rw [if_pos h, hup, if_neg hne]
  · rw [if_neg h, goToUpper_idem s, if_neg h]

/-! ### Public-IP lookup -/

/-- C7: with the first two endpoints answering HTTP 500 and the third
answering body `"203.0.113.7\n"`, the lookup accepts the trimmed body
after exactly three attempts; in general a 200 body is trimmed and
accepted exactly when the trimmed string parses as an IP, otherwise
the next endpoint is consulted. -/
theorem public_ip_fallback_scenario (b1 b2 body : String) (rest : List EndpointOutcome) :
    getPublicIPLoop
        (.resp 500 b1 :: .resp 500 b2 :: .resp 200 "203.0.113.7\n" :: rest) =
      (some "203.0.113.7", 3) ∧
    getPublicIPLoop (.resp 200 body :: rest) =
      (if goIsIP (goTrimSpace body) then (some (goTrimSpace body), 1)
       else ((getPublicIPLoop rest).1, (getPublicIPLoop rest).2 + 1)) := by
  constructor
  · have h500 : (500 : Nat) ≠ 200 := by decide
    have htrim : goTrimSpace "203.0.113.7\n" = "203.0.113.7" := by decide
    have hip : goIsIP "203.0.113.7" = true := by decide
    simp [getPublicIPLoop, h500, hip, htrim]
  · by_cases hip : goIsIP (goTrimSpace body) = true
    · simp [getPublicIPLoop, hip]
    · simp only [Bool.not_eq_true] at hip
      simp [getPublicIPLoop, hip]

/-! ### Retry policy -/

/-- C8 counterexample: the untyped error `"network access denied"`
satisfies the permission classifier yet is retried, because the
network classifier also matches and is checked first. -/
theorem shouldRetry_permission_overlap :
    IsPermissionError (.plain "network access denied") = true ∧
    ShouldRetry (.plain "network access denied") = true := by
  decide

/-- C8 amended: the retry predicate returns true exactly when the
timeout or network classifier accepts the error; typed Permission and
Validation errors are never retried.  The retry delay is the base
delay for non-positive attempts, and `attempt` times the base delay
capped at ten seconds while the 64-bit product does not overflow;
beyond that bound the multiplication wraps and the wrapped (possibly
negative) value is what the cap is compared against — at attempt
9223372037 the delay is a wrapped negative number, not the cap. -/
theorem retry_policy_amended (e : GoError) (m : String) (attempt : Int) :
    ShouldRetry e = (IsTimeoutError e || IsNetworkError e) ∧
    ShouldRetry (.typed .permission m) = false ∧
    ShouldRetry (.typed .validation m) = false ∧
    ShouldRetry (.typed .timeout m) = true ∧
    ShouldRetry (.typed .network m) = true ∧
    GetRetryDelay attempt =
      (if attempt ≤ 0 then RetryDelay
       else if attempt * RetryDelay < 9223372036854775808 then
         min (attempt * RetryDelay) (10 * RetryDelay)
       else if wrap64 (attempt * RetryDelay) > 10 * RetryDelay then 10 * RetryDelay
       else wrap64 (attempt * RetryDelay)) ∧
    GetRetryDelay 9223372037 = -9223372036709551616 := by
  refine ⟨?_, by simp [ShouldRetry, IsTimeoutError, IsNetworkError, IsPermissionError],
    by simp [ShouldRetry, IsTimeoutError, IsNetworkError, IsPermissionError],
    by simp [ShouldRetry, IsTimeoutError],
    by simp [ShouldRetry, IsTimeoutError, IsNetworkError], ?_, by decide⟩
  · unfold ShouldRetry
    cases IsTimeoutError e <;> cases IsNetworkError e <;> cases IsPermissionError e <;> simp
  · by_cases h0 : attempt ≤ 0
    · simp [GetRetryDelay, h0]
    · have hx : 0 < attempt * RetryDelay := by
        have ha : 0 < attempt := by omega
        have hr : 0 < RetryDelay := by norm_num [RetryDelay]
        exact mul_pos ha hr
      by_cases hlt : attempt * RetryDelay < 9223372036854775808
      · have hw : wrap64 (attempt * RetryDelay) = attempt * RetryDelay := by
          unfold wrap64
          have h1 : 0 ≤ attempt * RetryDelay + 9223372036854775808 := by omega
          have h2 : attempt * RetryDelay + 9223372036854775808 <
              18446744073709551616 := by omega
          rw [Int.emod_eq_of_lt h1 h2]
          omega
        simp only [RetryDelay] at hw
        simp only [GetRetryDelay, RetryDelay, if_neg h0, if_pos hlt, hw]
        rw [min_def]
        split_ifs <;> omega
      · simp only [RetryDelay] at hlt
        simp only [GetRetryDelay, RetryDelay, if_neg h0, if_neg hlt]

/-! ### Ping adapter -/

/-- C9: `PingHost` always returns a nil Go error; the success flag is
false exactly when the runner failed, and the failure text is carried
in the record's error field (empty on the success path, whose parse
helpers never set it). -/
theorem pingHost_nil_error (w : Bool) (host : String) (o : CmdOutcome) :
    (pingHost w host o).2 = none ∧
    (pingHost w host o).1.success =
      (match o with | .err _ _ => false | .ok _ => true) ∧
    (pingHost w host o).1.error =
      (match o with | .err m _ => m | .ok _ => "") := by
  cases o with
  | err m p => exact ⟨rfl, rfl, rfl⟩
  | ok out =>
    cases w <;> simp [pingHost, parseWindowsPingOutput, parseLinuxPingOutput]

theorem linuxPingLine_no_match (v : LPVars) (line : String)
    (h1 : findLinuxLoss (goTrimSpace line) = none)
    (h2 : findLinuxRTT (goTrimSpace line) = none)
    (h3 : findLinuxPackets (goTrimSpace line) = none) :
    linuxPingLine v line = v := by
  simp only [linuxPingLine, h1, h2, h3]

theorem foldl_linuxPingLine_no_match (lines : List String) (v : LPVars)
    (h : ∀ l ∈ lines, findLinuxLoss (goTrimSpace l) = none ∧
        findLinuxRTT (goTrimSpace l) = none ∧
        findLinuxPackets (goTrimSpace l) = none) :
    lines.foldl linuxPingLine v = v := by
  induction lines generalizing v with
  | nil => rfl
  | cons l ls ih =>
    have hl := h l (List.mem_cons_self l ls)
    rw [List.foldl_cons, linuxPingLine_no_match v l hl.1 hl.2.1 hl.2.2]
    exact ih v (fun x hx => h x (List.mem_cons_of_mem l hx))

theorem winPingFields_no_match (output : String)
    (h : ∀ l ∈ goSplitNewline output, findWinLoss (goTrimSpace l) = none ∧
        findWinRTT (goTrimSpace l) = none) :
    winPingFields output = (0, 0, 0, 0) := by
  unfold winPingFields
  have step : ∀ (lines : List String) (st : Nat × Nat × Nat × Nat),
      (∀ l ∈ lines, findWinLoss (goTrimSpace l) = none ∧
          findWinRTT (goTrimSpace l) = none) →
      lines.foldl
        (fun st line =>
          let line := goTrimSpace line
          let st := match findWinLoss line with
            | some l => (l, st.2.1, st.2.2.1, st.2.2.2)
            | none => st
          match findWinRTT line with
          | some (mn, mx, av) => (st.1, mn * 1000000, mx * 1000000, av * 1000000)
          | none => st) st = st := by
    intro lines
    induction lines with
    | nil => intro st _; rfl
    | cons l ls ih =>
      intro st hm
      have hl := hm l (List.mem_cons_self l ls)
      rw [List.foldl_cons]
      simp only [hl.1, hl.2]
      exact ih st (fun x hx => hm x (List.mem_cons_of_mem l hx))
  exact step (goSplitNewline output) (0, 0, 0, 0) h

/-- C3 counterexample: a zero-exit run whose output matches no
statistics pattern still ends with packets sent = 4 and packets
received = 4 under the Windows parser, not the zero defaults. -/
theorem ping_windows_no_pattern_sent_not_zero :
    ((goSplitNewline "unparseable ping output").all (fun l =>
        (findWinLoss (goTrimSpace l)).isNone &&
        (findWinRTT (goTrimSpace l)).isNone &&
        (findLinuxLoss (goTrimSpace l)).isNone &&
        (findLinuxRTT (goTrimSpace l)).isNone &&
        (findLinuxPackets (goTrimSpace l)).isNone)) = true ∧
    (pingHost true "example.com" (.ok "unparseable ping output")).1.packetsSent = 4 ∧
    (pingHost true "example.com" (.ok "unparseable ping output")).1.packetsRecv = 4 := by
  decide

/-- C3 amended: on a zero exit with no statistics pattern in the
output, the POSIX parser leaves every numeric field at its zero
default; the Windows parser leaves loss and RTTs at zero but defaults
packets sent to 4 and computes packets received as 4; in both cases
the call keeps success true, and success is false exactly when the
process exits non-zero or the runner fails. -/
theorem ping_no_stats_pattern_fields (host output : String)
    (hlin : ∀ l ∈ goSplitNewline output, findLinuxLoss (goTrimSpace l) = none ∧
        findLinuxRTT (goTrimSpace l) = none ∧
        findLinuxPackets (goTrimSpace l) = none)
    (hwin : ∀ l ∈ goSplitNewline output, findWinLoss (goTrimSpace l) = none ∧
        findWinRTT (goTrimSpace l) = none) :
    (pingHost false host (.ok output)).1 =
      { host := host, success := true, packetLoss := 0, minRTT := 0, maxRTT := 0,
        avgRTT := 0, packetsSent := 0, packetsRecv := 0, rawOutput := output,
        error := "" } ∧
    (pingHost true host (.ok output)).1 =
      { host := host, success := true, packetLoss := 0, minRTT := 0, maxRTT := 0,
        avgRTT := 0, packetsSent := 4, packetsRecv := 4, rawOutput := output,
        error := "" } ∧
    (∀ (w : Bool) (h2 : String) (o : CmdOutcome),
      (pingHost w h2 o).1.success =
        (match o with | .err _ _ => false | .ok _ => true)) := by
  refine ⟨?_, ?_, ?_⟩
  · have hfold := foldl_linuxPingLine_no_match (goSplitNewline output) {} hlin
    simp [pingHost, parseLinuxPingOutput, hfold]
  · have hfields := winPingFields_no_match output hwin
    simp [pingHost, parseWindowsPingOutput, hfields]
    decide
  · intro w h2 o
    cases o with
    | err m p => rfl
    | ok out =>
      cases w <;> simp [pingHost, parseWindowsPingOutput, parseLinuxPingOutput]

/-- C3 witness: a concrete no-pattern output. -/
theorem ping_no_stats_pattern_fields_witness :
    ((∀ l ∈ goSplitNewline "hello world", findLinuxLoss (goTrimSpace l) = none ∧
        findLinuxRTT (goTrimSpace l) = none ∧
        findLinuxPackets (goTrimSpace l) = none) ∧
      (∀ l ∈ goSplitNewline "hello world", findWinLoss (goTrimSpace l) = none ∧
        findWinRTT (goTrimSpace l) = none)) ∧
    (pingHost false "h" (.ok "hello world")).1 =
      { host := "h", success := true, packetLoss := 0, minRTT := 0, maxRTT := 0,
        avgRTT := 0, packetsSent := 0, packetsRecv := 0, rawOutput := "hello world",
        error := "" } :=
  ⟨⟨by decide, by decide⟩,
    (ping_no_stats_pattern_fields "h" "hello world" (by decide) (by decide)).1⟩

/-! ### Gateway fallback exhaustion -/

/-- C4: when the structured and text gateway tiers both yield zero
records, `getLinuxGateway` returns the raw-table tier's
not-implemented failure together with an empty configuration, never an
empty success. -/
theorem gateway_fallback_exhaustion (t1 : Option (List JRouteEntry)) (t2 : Option String)
    (h1 : ∀ rs, t1 = some rs → (linuxJSONGatewayTier rs).allGateways = [])
    (h2 : ∀ out, t2 = some out → (parseIPRouteOutput out).allGateways = []) :
    getLinuxGateway t1 t2 =
      ({ defaultIPv4 := none, defaultIPv6 := none, allGateways := [] },
        some "parsing /proc/net/route not implemented") := by
  unfold getLinuxGateway
  cases t1 with
  | none =>
    cases t2 with
    | none => rfl
    | some out => simp [h2 out rfl, linuxJSONGatewayTier]
  | some rs =>
    have e1 := h1 rs rfl
    cases t2 with
    | none => simp [e1]
    | some out => simp [e1, h2 out rfl]

/-- C4 witness: an empty decoded JSON tier and an empty text output. -/
theorem gateway_fallback_exhaustion_witness :
    ((linuxJSONGatewayTier []).allGateways = [] ∧
      (parseIPRouteOutput "").allGateways = []) ∧
    getLinuxGateway (some []) (some "") =
      ({ defaultIPv4 := none, defaultIPv6 := none, allGateways := [] },
        some "parsing /proc/net/route not implemented") :=
  ⟨⟨by decide, by decide⟩,
    gateway_fallback_exhaustion (some []) (some "")
      (fun rs h => by
        have h2 := Option.some.inj h
        subst h2
        decide)
      (fun out h => by
        have h2 := Option.some.inj h
        subst h2
        decide)⟩

/-! ### Gateway default selection -/

theorem foldl_preserve {α β : Type} (f : β → α → β) (P : β → Prop)
    (hf : ∀ b a, P b → P (f b a)) : ∀ (l : List α) (b : β), P b → P (l.foldl f b) := by
  intro l
  induction l with
  | nil => intro b hb; exact hb
  | cons x xs ih =>
    intro b hb
    rw [List.foldl_cons]
    exact ih _ (hf b x hb)

theorem addGateway_fields (cfg : GatewayConfig) (gi : GatewayInfo) :
    (addGateway cfg gi).allGateways = cfg.allGateways ++ [gi] ∧
    (addGateway cfg gi).defaultIPv4 =
      (if gi.ipVersion = "IPv4" ∧ cfg.defaultIPv4 = none then some gi
       else cfg.defaultIPv4) ∧
    (addGateway cfg gi).defaultIPv6 =
      (if gi.ipVersion = "IPv6" ∧ cfg.defaultIPv6 = none then some gi
       else cfg.defaultIPv6) := by
  unfold addGateway
  dsimp only
  split_ifs with h1 h2 <;> simp_all

theorem head?_filter_append_true {α : Type} (p : α → Bool) (l : List α) (x : α)
    (hx : p x = true) (hd : (l.filter p).head? = none) :
    ((l ++ [x]).filter p).head? = some x := by
  have hl : l.filter p = [] := by
    cases hc : l.filter p with
    | nil => rfl
    | cons y ys => rw [hc] at hd; simp at hd
  rw [List.filter_append, hl]
  simp [hx]

theorem head?_filter_append_keep {α : Type} (p : α → Bool) (l : List α) (x : α) :
    (l.filter p).head? = none ∨
      ((l ++ [x]).filter p).head? = (l.filter p).head? := by
  cases hc : l.filter p with
  | nil => left; rfl
  | cons y ys =>
    right
    rw [List.filter_append, hc]
    rfl

theorem head?_filter_append_false {α : Type} (p : α → Bool) (l : List α) (x : α)
    (hx : p x = false) :
    ((l ++ [x]).filter p).head? = (l.filter p).head? := by
  rw [List.filter_append]
  simp [hx]

theorem addGateway_inv (cfg : GatewayConfig) (gi : GatewayInfo)
    (h4 : cfg.defaultIPv4 =
      (cfg.allGateways.filter (fun g => g.ipVersion == "IPv4")).head?)
    (h6 : cfg.defaultIPv6 =
      (cfg.allGateways.filter (fun g => g.ipVersion == "IPv6")).head?) :
    (addGateway cfg gi).defaultIPv4 =
      ((addGateway cfg gi).allGateways.filter (fun g => g.ipVersion == "IPv4")).head? ∧
    (addGateway cfg gi).defaultIPv6 =
      ((addGateway cfg gi).allGateways.filter (fun g => g.ipVersion == "IPv6")).head? := by
  obtain ⟨ha, hd4, hd6⟩ := addGateway_fields cfg gi
  rw [ha, hd4, hd6, h4, h6]
  constructor
  · by_cases hv : gi.ipVersion = "IPv4"
    · by_cases hn : (cfg.allGateways.filter (fun g => g.ipVersion == "IPv4")).head? = none
      · rw [if_pos ⟨hv, hn⟩]
        exact (head?_filter_append_true _ _ _ (by simp [hv]) hn).symm
      · rw [if_neg (fun hc => hn hc.2)]
        rcases head?_filter_append_keep (fun g => g.ipVersion == "IPv4")
            cfg.allGateways gi with hk | hk
        · exact absurd hk hn
        · exact hk.symm
    · rw [if_neg (fun hc => hv hc.1)]
      exact (head?_filter_append_false _ _ _ (by simp [hv])).symm
  · by_cases hv : gi.ipVersion = "IPv6"
    · by_cases hn : (cfg.allGateways.filter (fun g => g.ipVersion == "IPv6")).head? = none
      · rw [if_pos ⟨hv, hn⟩]
        exact (head?_filter_append_true _ _ _ (by simp [hv]) hn).symm
      · rw [if_neg (fun hc => hn hc.2)]
        rcases head?_filter_append_keep (fun g => g.ipVersion == "IPv6")
            cfg.allGateways gi with hk | hk
        · exact absurd hk hn
        · exact hk.symm
    · rw [if_neg (fun hc => hv hc.1)]
      exact (head?_filter_append_false _ _ _ (by simp [hv])).symm

theorem processLinuxJSONRoute_inv (cfg : GatewayConfig) (r : JRouteEntry)
    (h4 : cfg.defaultIPv4 =
      (cfg.allGateways.filter (fun g => g.ipVersion == "IPv4")).head?)
    (h6 : cfg.defaultIPv6 =
      (cfg.allGateways.filter (fun g => g.ipVersion == "IPv6")).head?)
    (hf : cfg.allGateways.all
      (fun g => g.ipVersion == linuxGatewayVersion g.gateway) = true) :
    (processLinuxJSONRoute cfg r).defaultIPv4 =
      ((processLinuxJSONRoute cfg r).allGateways.filter
        (fun g => g.ipVersion == "IPv4")).head? ∧
    (processLinuxJSONRoute cfg r).defaultIPv6 =
      ((processLinuxJSONRoute cfg r).allGateways.filter
        (fun g => g.ipVersion == "IPv6")).head? ∧
    (processLinuxJSONRoute cfg r).allGateways.all
      (fun g => g.ipVersion == linuxGatewayVersion g.gateway) = true := by
  unfold processLinuxJSONRoute
  split_ifs with hv
  · have hinv := addGateway_inv cfg
      { interface_ := r.dev, gateway := r.gateway,
        ipVersion := linuxGatewayVersion r.gateway, metric := r.metric,
        source := "ip -j route" } h4 h6
    have hall := (addGateway_fields cfg
      { interface_ := r.dev, gateway := r.gateway,
        ipVersion := linuxGatewayVersion r.gateway, metric := r.metric,
        source := "ip -j route" }).1
    refine ⟨hinv.1, hinv.2, ?_⟩
    rw [hall]
    simp [List.all_append, hf]
  · exact ⟨h4, h6, hf⟩

theorem parseIPRouteLine_inv (cfg : GatewayConfig) (line : String)
    (h4 : cfg.defaultIPv4 =
      (cfg.allGateways.filter (fun g => g.ipVersion == "IPv4")).head?)
    (h6 : cfg.defaultIPv6 =
      (cfg.allGateways.filter (fun g => g.ipVersion == "IPv6")).head?)
    (hf : cfg.allGateways.all
      (fun g => g.ipVersion == linuxGatewayVersion g.gateway) = true) :
    (parseIPRouteLine cfg line).defaultIPv4 =
      ((parseIPRouteLine cfg line).allGateways.filter
        (fun g => g.ipVersion == "IPv4")).head? ∧
    (parseIPRouteLine cfg line).defaultIPv6 =
      ((parseIPRouteLine cfg line).allGateways.filter
        (fun g => g.ipVersion == "IPv6")).head? ∧
    (parseIPRouteLine cfg line).allGateways.all
      (fun g => g.ipVersion == linuxGatewayVersion g.gateway) = true := by
  unfold parseIPRouteLine
  dsimp only
  split_ifs with hb
  · exact ⟨h4, h6, hf⟩
  · split
    · split_ifs with hv
      · refine ⟨(addGateway_inv cfg _ h4 h6).1, (addGateway_inv cfg _ h4 h6).2, ?_⟩
        rw [(addGateway_fields cfg _).1]
        simp [List.all_append, hf]
      · exact ⟨h4, h6, hf⟩
    · exact ⟨h4, h6, hf⟩

theorem winAddV4_eq (cfg : GatewayConfig) (r : WinRoute) :
    winAddV4 cfg r =
      (if r.interfaceAlias ≠ "" ∧ r.nextHop ≠ "" then
        addGateway cfg
          { interface_ := r.interfaceAlias, gateway := r.nextHop,
            ipVersion := "IPv4", metric := r.metric, source := "PowerShell" }
      else cfg) := by
  unfold winAddV4 addGateway
  dsimp only
  split_ifs <;> simp_all

theorem winAddV6_eq (cfg : GatewayConfig) (r : WinRoute) :
    winAddV6 cfg r =
      (if r.interfaceAlias ≠ "" ∧ r.nextHop ≠ "" then
        addGateway cfg
          { interface_ := r.interfaceAlias, gateway := r.nextHop,
            ipVersion := "IPv6", metric := r.metric, source := "PowerShell" }
      else cfg) := by
  unfold winAddV6 addGateway
  dsimp only
  split_ifs <;> simp_all

theorem winAddV4_inv (cfg : GatewayConfig) (r : WinRoute)
    (h4 : cfg.defaultIPv4 =
      (cfg.allGateways.filter (fun g => g.ipVersion == "IPv4")).head?)
    (h6 : cfg.defaultIPv6 =
      (cfg.allGateways.filter (fun g => g.ipVersion == "IPv6")).head?) :
    (winAddV4 cfg r).defaultIPv4 =
      ((winAddV4 cfg r).allGateways.filter (fun g => g.ipVersion == "IPv4")).head? ∧
    (winAddV4 cfg r).defaultIPv6 =
      ((winAddV4 cfg r).allGateways.filter (fun g => g.ipVersion == "IPv6")).head? := by
  rw [winAddV4_eq]
  split_ifs with hv
  · exact addGateway_inv cfg _ h4 h6
  · exact ⟨h4, h6⟩

theorem winAddV6_inv (cfg : GatewayConfig) (r : WinRoute)
    (h4 : cfg.defaultIPv4 =
      (cfg.allGateways.filter (fun g => g.ipVersion == "IPv4")).head?)
    (h6 : cfg.defaultIPv6 =
      (cfg.allGateways.filter (fun g => g.ipVersion == "IPv6")).head?) :
    (winAddV6 cfg r).defaultIPv4 =
      ((winAddV6 cfg r).allGateways.filter (fun g => g.ipVersion == "IPv4")).head? ∧
    (winAddV6 cfg r).defaultIPv6 =
      ((winAddV6 cfg r).allGateways.filter (fun g => g.ipVersion == "IPv6")).head? := by
  rw [winAddV6_eq]
  split_ifs with hv
  · exact addGateway_inv cfg _ h4 h6
  · exact ⟨h4, h6⟩

theorem foldl_winAddV4_allGateways (rs : List WinRoute) (cfg : GatewayConfig) :
    (rs.foldl winAddV4 cfg).allGateways =
      cfg.allGateways ++ winTierRecords "IPv4" rs := by
  induction rs generalizing cfg with
  | nil => simp [winTierRecords]
  | cons r rest ih =>
    rw [List.foldl_cons, ih (winAddV4 cfg r), winAddV4_eq]
    unfold winTierRecords
    by_cases hv : r.interfaceAlias ≠ "" ∧ r.nextHop ≠ ""
    · have hb : (!(r.interfaceAlias == "") && !(r.nextHop == "")) = true := by
        simp [hv.1, hv.2]
      rw [if_pos hv, (addGateway_fields cfg _).1]
      simp [List.filter_cons, hb, winTierRecords]
    · have hb : (!(r.interfaceAlias == "") && !(r.nextHop == "")) = false := by
        rcases not_and_or.mp hv with h | h <;> simp [not_not.mp h]
      rw [if_neg hv]
      simp [List.filter_cons, hb, winTierRecords]

theorem foldl_winAddV6_allGateways (rs : List WinRoute) (cfg : GatewayConfig) :
    (rs.foldl winAddV6 cfg).allGateways =
      cfg.allGateways ++ winTierRecords "IPv6" rs := by
  induction rs generalizing cfg with
  | nil => simp [winTierRecords]
  | cons r rest ih =>
    rw [List.foldl_cons, ih (winAddV6 cfg r), winAddV6_eq]
    unfold winTierRecords
    by_cases hv : r.interfaceAlias ≠ "" ∧ r.nextHop ≠ ""
    · have hb : (!(r.interfaceAlias == "") && !(r.nextHop == "")) = true := by
        simp [hv.1, hv.2]
      rw [if_pos hv, (addGateway_fields cfg _).1]
      simp [List.filter_cons, hb, winTierRecords]
    · have hb : (!(r.interfaceAlias == "") && !(r.nextHop == "")) = false := by
        rcases not_and_or.mp hv with h | h <;> simp [not_not.mp h]
      rw [if_neg hv]
      simp [List.filter_cons, hb, winTierRecords]

theorem linuxGatewayTier_inv (routes : List JRouteEntry) :
    (linuxJSONGatewayTier routes).defaultIPv4 =
      ((linuxJSONGatewayTier routes).allGateways.filter
        (fun g => g.ipVersion == "IPv4")).head? ∧
    (linuxJSONGatewayTier routes).defaultIPv6 =
      ((linuxJSONGatewayTier routes).allGateways.filter
        (fun g => g.ipVersion == "IPv6")).head? ∧
    (linuxJSONGatewayTier routes).allGateways.all
      (fun g => g.ipVersion == linuxGatewayVersion g.gateway) = true := by
  unfold linuxJSONGatewayTier
  exact foldl_preserve processLinuxJSONRoute
    (fun cfg => cfg.defaultIPv4 =
        (cfg.allGateways.filter (fun g => g.ipVersion == "IPv4")).head? ∧
      cfg.defaultIPv6 =
        (cfg.allGateways.filter (fun g => g.ipVersion == "IPv6")).head? ∧
      cfg.allGateways.all (fun g => g.ipVersion == linuxGatewayVersion g.gateway) = true)
    (fun b a hb => processLinuxJSONRoute_inv b a hb.1 hb.2.1 hb.2.2)
    routes {} ⟨rfl, rfl, rfl⟩

theorem parseIPRouteOutput_inv (output : String) :
    (parseIPRouteOutput output).defaultIPv4 =
      ((parseIPRouteOutput output).allGateways.filter
        (fun g => g.ipVersion == "IPv4")).head? ∧
    (parseIPRouteOutput output).defaultIPv6 =
      ((parseIPRouteOutput output).allGateways.filter
        (fun g => g.ipVersion == "IPv6")).head? ∧
    (parseIPRouteOutput output).allGateways.all
      (fun g => g.ipVersion == linuxGatewayVersion g.gateway) = true := by
  unfold parseIPRouteOutput
  exact foldl_preserve parseIPRouteLine
    (fun cfg => cfg.defaultIPv4 =
        (cfg.allGateways.filter (fun g => g.ipVersion == "IPv4")).head? ∧
      cfg.defaultIPv6 =
        (cfg.allGateways.filter (fun g => g.ipVersion == "IPv6")).head? ∧
      cfg.allGateways.all (fun g => g.ipVersion == linuxGatewayVersion g.gateway) = true)
    (fun b a hb => parseIPRouteLine_inv b a hb.1 hb.2.1 hb.2.2)
    (goSplitNewline output) {} ⟨rfl, rfl, rfl⟩

theorem getLinuxGateway_shape (t1 : Option (List JRouteEntry)) (t2 : Option String) :
    (getLinuxGateway t1 t2).1 =
      { defaultIPv4 := none, defaultIPv6 := none, allGateways := [] } ∨
    (∃ routes, t1 = some routes ∧
      (getLinuxGateway t1 t2).1 = linuxJSONGatewayTier routes) ∨
    (∃ out, t2 = some out ∧
      (getLinuxGateway t1 t2).1 = parseIPRouteOutput out) := by
  unfold getLinuxGateway
  cases t1 with
  | none =>
    cases t2 with
    | none => left; rfl
    | some out =>
      by_cases he : (parseIPRouteOutput out).allGateways = []
      · left; simp [he]
      · right; right; exact ⟨out, rfl, by simp [he]⟩
  | some routes =>
    by_cases h1e : (linuxJSONGatewayTier routes).allGateways = []
    · cases t2 with
      | none => left; simp [h1e]
      | some out =>
        by_cases h2e : (parseIPRouteOutput out).allGateways = []
        · left; simp [h1e, h2e]
        · right; right; exact ⟨out, rfl, by simp [h1e, h2e]⟩
    · right; left; exact ⟨routes, rfl, by simp [h1e]⟩

theorem getLinuxGateway_inv (t1 : Option (List JRouteEntry)) (t2 : Option String) :
    (getLinuxGateway t1 t2).1.defaultIPv4 =
      ((getLinuxGateway t1 t2).1.allGateways.filter
        (fun g => g.ipVersion == "IPv4")).head? ∧
    (getLinuxGateway t1 t2).1.defaultIPv6 =
      ((getLinuxGateway t1 t2).1.allGateways.filter
        (fun g => g.ipVersion == "IPv6")).head? ∧
    (getLinuxGateway t1 t2).1.allGateways.all
      (fun g => g.ipVersion == linuxGatewayVersion g.gateway) = true := by
  rcases getLinuxGateway_shape t1 t2 with h | ⟨routes, _, h⟩ | ⟨out, _, h⟩ <;> rw [h]
  · exact ⟨rfl, rfl, rfl⟩
  · exact linuxGatewayTier_inv routes
  · exact parseIPRouteOutput_inv out

theorem getWindowsGateway_inv (v4 v6 : Option (List WinRoute)) :
    (getWindowsGateway v4 v6).1.defaultIPv4 =
      ((getWindowsGateway v4 v6).1.allGateways.filter
        (fun g => g.ipVersion == "IPv4")).head? ∧
    (getWindowsGateway v4 v6).1.defaultIPv6 =
      ((getWindowsGateway v4 v6).1.allGateways.filter
        (fun g => g.ipVersion == "IPv6")).head? := by
  have hv4 : ∀ (rs : List WinRoute) (cfg : GatewayConfig),
      (cfg.defaultIPv4 = (cfg.allGateways.filter (fun g => g.ipVersion == "IPv4")).head? ∧
        cfg.defaultIPv6 = (cfg.allGateways.filter (fun g => g.ipVersion == "IPv6")).head?) →
      ((rs.foldl winAddV4 cfg).defaultIPv4 =
          ((rs.foldl winAddV4 cfg).allGateways.filter (fun g => g.ipVersion == "IPv4")).head? ∧
        (rs.foldl winAddV4 cfg).defaultIPv6 =
          ((rs.foldl winAddV4 cfg).allGateways.filter (fun g => g.ipVersion == "IPv6")).head?) :=
    fun rs cfg h => foldl_preserve winAddV4
      (fun cfg => cfg.defaultIPv4 =
          (cfg.allGateways.filter (fun g => g.ipVersion == "IPv4")).head? ∧
        cfg.defaultIPv6 =
          (cfg.allGateways.filter (fun g => g.ipVersion == "IPv6")).head?)
      (fun b a hb => winAddV4_inv b a hb.1 hb.2) rs cfg h
  have hv6 : ∀ (rs : List WinRoute) (cfg : GatewayConfig),
      (cfg.defaultIPv4 = (cfg.allGateways.filter (fun g => g.ipVersion == "IPv4")).head? ∧
        cfg.defaultIPv6 = (cfg.allGateways.filter (fun g => g.ipVersion == "IPv6")).head?) →
      ((rs.foldl winAddV6 cfg).defaultIPv4 =
          ((rs.foldl winAddV6 cfg).allGateways.filter (fun g => g.ipVersion == "IPv4")).head? ∧
        (rs.foldl winAddV6 cfg).defaultIPv6 =
          ((rs.foldl winAddV6 cfg).allGateways.filter (fun g => g.ipVersion == "IPv6")).head?) :=
    fun rs cfg h => foldl_preserve winAddV6
      (fun cfg => cfg.defaultIPv4 =
          (cfg.allGateways.filter (fun g => g.ipVersion == "IPv4")).head? ∧
        cfg.defaultIPv6 =
          (cfg.allGateways.filter (fun g => g.ipVersion == "IPv6")).head?)
      (fun b a hb => winAddV6_inv b a hb.1 hb.2) rs cfg h
  unfold getWindowsGateway
  cases v4 with
  | none =>
    cases v6 with
    | none => exact ⟨rfl, rfl⟩
    | some rs6 => exact hv6 rs6 {} ⟨rfl, rfl⟩
  | some rs4 =>
    cases v6 with
    | none => exact hv4 rs4 {} ⟨rfl, rfl⟩
    | some rs6 => exact hv6 rs6 _ (hv4 rs4 {} ⟨rfl, rfl⟩)

theorem getWindowsGateway_records (v4 v6 : Option (List WinRoute)) :
    (getWindowsGateway v4 v6).1.allGateways =
      winTierRecords "IPv4" (v4.getD []) ++ winTierRecords "IPv6" (v6.getD []) := by
  unfold getWindowsGateway
  cases v4 <;> cases v6 <;>
    simp [foldl_winAddV4_allGateways, foldl_winAddV6_allGateways, winTierRecords]

/-- C2 counterexample: a Windows run whose IPv4-scoped query reports a
next hop that does not parse as IPv4 still tags the record `"IPv4"`:
the family of a Windows record is not determined by parsing its
gateway address. -/
theorem windowsGateway_family_not_by_parse :
    ((getWindowsGateway
        (some [{ interfaceAlias := "Ethernet", nextHop := "fe80::1", metric := 1 }])
        (some [])).1.allGateways.all
      (fun g => g.ipVersion == (if goIsIPv4 g.gateway then "IPv4" else "IPv6"))) = false := by
  decide

/-- C2 amended: in every gateway acquisition run at most one record
per IP family is designated that family's default (the `Option`-typed
fields), and the designated record is the first record of its family
in the run's record list.  On the Linux adapter a record's family is
determined by whether its gateway address parses as IPv4; on the
Windows adapter each record carries the family of the per-family
PowerShell query that produced it, with no parse of the hop address. -/
theorem gateway_default_first_per_family (t1 : Option (List JRouteEntry))
    (t2 : Option String) (v4 v6 : Option (List WinRoute)) :
    ((getLinuxGateway t1 t2).1.defaultIPv4 =
        ((getLinuxGateway t1 t2).1.allGateways.filter
          (fun g => g.ipVersion == "IPv4")).head? ∧
      (getLinuxGateway t1 t2).1.defaultIPv6 =
        ((getLinuxGateway t1 t2).1.allGateways.filter
          (fun g => g.ipVersion == "IPv6")).head?) ∧
    (getLinuxGateway t1 t2).1.allGateways.all
      (fun g => g.ipVersion == linuxGatewayVersion g.gateway) = true ∧
    ((getWindowsGateway v4 v6).1.defaultIPv4 =
        ((getWindowsGateway v4 v6).1.allGateways.filter
          (fun g => g.ipVersion == "IPv4")).head? ∧
      (getWindowsGateway v4 v6).1.defaultIPv6 =
        ((getWindowsGateway v4 v6).1.allGateways.filter
          (fun g => g.ipVersion == "IPv6")).head?) ∧
    (getWindowsGateway v4 v6).1.allGateways =
      winTierRecords "IPv4" (v4.getD []) ++ winTierRecords "IPv6" (v6.getD []) :=
  ⟨⟨(getLinuxGateway_inv t1 t2).1, (getLinuxGateway_inv t1 t2).2.1⟩,
    (getLinuxGateway_inv t1 t2).2.2,
    getWindowsGateway_inv v4 v6,
    getWindowsGateway_records v4 v6⟩

/-! ### DNS nameserver partition -/

theorem filter_family_partition_length (l : List String) :
    (l.filter (fun a => goIsIP a && goIsIPv4 a)).length +
      (l.filter (fun a => goIsIP a && !(goIsIPv4 a))).length =
      (l.filter (fun a => goIsIP a)).length := by
  induction l with
  | nil => rfl
  | cons a as ih =>
    simp only [List.filter_cons]
    cases hip : goIsIP a <;> cases hv4 : goIsIPv4 a <;> simp <;> omega

theorem linuxDNSLine_inv (st : DNSInfo × List String) (line : String)
    (hi : st.1.interface_ = "system")
    (h4 : st.1.ipv4 = st.1.all.filter (fun a => goIsIP a && goIsIPv4 a))
    (h6 : st.1.ipv6 = st.1.all.filter (fun a => goIsIP a && !(goIsIPv4 a))) :
    (linuxDNSLine st line).1.interface_ = "system" ∧
    (linuxDNSLine st line).1.ipv4 =
      (linuxDNSLine st line).1.all.filter (fun a => goIsIP a && goIsIPv4 a) ∧
    (linuxDNSLine st line).1.ipv6 =
      (linuxDNSLine st line).1.all.filter (fun a => goIsIP a && !(goIsIPv4 a)) := by
  unfold linuxDNSLine
  dsimp only
  split_ifs with hb hlen
  · exact ⟨hi, h4, h6⟩
  · exact ⟨hi, h4, h6⟩
  · split
    · rename_i server _
      split_ifs with hip hv4
      · refine ⟨hi, ?_, ?_⟩
        · simp [List.filter_append, h4, hip, hv4]
        · simp [List.filter_append, h6, hip, hv4]
      · refine ⟨hi, ?_, ?_⟩
        · simp [List.filter_append, h4, hip, hv4]
        · simp [List.filter_append, h6, hip, hv4]
      · refine ⟨hi, ?_, ?_⟩
        · simp [List.filter_append, h4, hip]
        · simp [List.filter_append, h6, hip]
    · exact ⟨hi, h4, h6⟩
    · exact ⟨hi, h4, h6⟩

/-- C5: in the file-based DNS strategy every `nameserver` address goes
into the combined list, and the IPv4/IPv6 lists are exactly its
valid-IP entries split by whether the address parses as IPv4 — each
valid address lands in exactly one of the two lists (their lengths sum
to the number of valid addresses), on the single synthetic `"system"`
record. -/
theorem dns_nameserver_partition (content : String) :
    ∀ di ∈ (getLinuxDNS content).servers,
      di.interface_ = "system" ∧
      di.ipv4 = di.all.filter (fun a => goIsIP a && goIsIPv4 a) ∧
      di.ipv6 = di.all.filter (fun a => goIsIP a && !(goIsIPv4 a)) ∧
      di.ipv4.length + di.ipv6.length = (di.all.filter (fun a => goIsIP a)).length := by
  intro di hdi
  have hfold := foldl_preserve linuxDNSLine
    (fun st => st.1.interface_ = "system" ∧
      st.1.ipv4 = st.1.all.filter (fun a => goIsIP a && goIsIPv4 a) ∧
      st.1.ipv6 = st.1.all.filter (fun a => goIsIP a && !(goIsIPv4 a)))
    (fun b a hb => linuxDNSLine_inv b a hb.1 hb.2.1 hb.2.2)
    (goSplitNewline content)
    ({ interface_ := "system", ipv4 := [], ipv6 := [], all := [] }, [])
    ⟨rfl, rfl, rfl⟩
  unfold getLinuxDNS at hdi
  dsimp only at hdi
  split_ifs at hdi with hne
  · have hd : di = ((goSplitNewline content).foldl linuxDNSLine
        ({ interface_ := "system", ipv4 := [], ipv6 := [], all := [] }, [])).1 :=
      List.mem_singleton.mp hdi
    rw [hd]
    refine ⟨hfold.1, hfold.2.1, hfold.2.2, ?_⟩
    rw [hfold.2.1, hfold.2.2]
    exact filter_family_partition_length _
  · simp at hdi

/-- C5 witness: one IPv4 and one IPv6 nameserver. -/
theorem dns_nameserver_partition_witness :
    (({ interface_ := "system", ipv4 := ["8.8.8.8"], ipv6 := ["fe80::1"],
        all := ["8.8.8.8", "fe80::1"] } : DNSInfo) ∈
      (getLinuxDNS "nameserver 8.8.8.8\nnameserver fe80::1").servers) ∧
    (({ interface_ := "system", ipv4 := ["8.8.8.8"], ipv6 := ["fe80::1"],
        all := ["8.8.8.8", "fe80::1"] } : DNSInfo).interface_ = "system") ∧
    (({ interface_ := "system", ipv4 := ["8.8.8.8"], ipv6 := ["fe80::1"],
        all := ["8.8.8.8", "fe80::1"] } : DNSInfo).ipv4 =
      (["8.8.8.8", "fe80::1"].filter (fun a => goIsIP a && goIsIPv4 a))) ∧
    (({ interface_ := "system", ipv4 := ["8.8.8.8"], ipv6 := ["fe80::1"],
        all := ["8.8.8.8", "fe80::1"] } : DNSInfo).ipv6 =
      (["8.8.8.8", "fe80::1"].filter (fun a => goIsIP a && !(goIsIPv4 a)))) ∧
    ((["8.8.8.8"] : List String).length + (["fe80::1"] : List String).length =
      (["8.8.8.8", "fe80::1"].filter (fun a => goIsIP a)).length) :=
  have h := dns_nameserver_partition "nameserver 8.8.8.8\nnameserver fe80::1"
    { interface_ := "system", ipv4 := ["8.8.8.8"], ipv6 := ["fe80::1"],
      all := ["8.8.8.8", "fe80::1"] } (by decide)
  ⟨by decide, h.1, h.2.1, h.2.2.1, h.2.2.2⟩

/-! ### Connection batch counters -/

theorem processConn_inv (pm : List (Int × String)) (cfg : ConnectionConfig) (conn : RawConn)
    (h1 : cfg.totalCount = cfg.connections.length)
    (h2 : cfg.listenCount + cfg.establishedCount ≤ cfg.totalCount)
    (h3 : cfg.tcpCount = (cfg.connections.filter (fun c => c.type_ == "tcp")).length)
    (h4 : cfg.udpCount = (cfg.connections.filter (fun c => c.type_ == "udp")).length) :
    (processConn pm cfg conn).totalCount = (processConn pm cfg conn).connections.length ∧
    (processConn pm cfg conn).listenCount + (processConn pm cfg conn).establishedCount ≤
      (processConn pm cfg conn).totalCount ∧
    (processConn pm cfg conn).tcpCount =
      ((processConn pm cfg conn).connections.filter (fun c => c.type_ == "tcp")).length ∧
    (processConn pm cfg conn).udpCount =
      ((processConn pm cfg conn).connections.filter (fun c => c.type_ == "udp")).length := by
  unfold processConn
  dsimp only
  split_ifs with hskip ht hu hl he hl2 he2 hl3 he3 <;>
    simp_all [List.filter_append, List.length_append] <;>
    omega

/-- C10: in every connection batch the total counter equals the number
of retained records, listening plus established never exceeds it, and
the TCP/UDP counters count exactly the records whose mapped type is
the string `"tcp"` / `"udp"` — so `"tcp6"`/`"udp6"` records are
counted in neither. -/
theorem connection_counters (conns : List RawConn) (pm : List (Int × String)) :
    (getActiveConnections conns pm).totalCount =
      (getActiveConnections conns pm).connections.length ∧
    (getActiveConnections conns pm).listenCount +
        (getActiveConnections conns pm).establishedCount ≤
      (getActiveConnections conns pm).totalCount ∧
    (getActiveConnections conns pm).tcpCount =
      ((getActiveConnections conns pm).connections.filter
        (fun c => c.type_ == "tcp")).length ∧
    (getActiveConnections conns pm).udpCount =
      ((getActiveConnections conns pm).connections.filter
        (fun c => c.type_ == "udp")).length := by
  unfold getActiveConnections
  exact foldl_preserve (processConn pm)
    (fun cfg => cfg.totalCount = cfg.connections.length ∧
      cfg.listenCount + cfg.establishedCount ≤ cfg.totalCount ∧
      cfg.tcpCount = (cfg.connections.filter (fun c => c.type_ == "tcp")).length ∧
      cfg.udpCount = (cfg.connections.filter (fun c => c.type_ == "udp")).length)
    (fun b a hb => processConn_inv pm b a hb.1 hb.2.1 hb.2.2.1 hb.2.2.2)
    conns {} ⟨rfl, by simp, rfl, rfl⟩

end NetInfo
